import Mathlib

/-!
Verification of the Go todo service (`main.go`) against its specification.

The service is a CRUD HTTP handler layer over a MongoDB collection.  We
shallowly embed each handler as a pure function from the decoded request
data and the current store contents (a list of stored records) to a
response and a new store.  External effects are made explicit parameters:
the freshly generated ObjectID and the current time are inputs of
`createTodo`, JSON body decoding is represented by an `Option todo`
argument (`none` = decode failure), and the store never fails (its
contract per the spec).
-/

set_option autoImplicit false

namespace Todo

/-- A MongoDB ObjectID: 12 bytes.  Library semantics of
`primitive.ObjectID` (external collaborator): a value convertible to and
from a 24-character hexadecimal string. -/
abbrev ObjectId := List Nat

/-- Value of one hexadecimal digit character, as accepted by Go's
`encoding/hex.DecodeString` (both cases). -/
def hexDigitVal (c : Char) : Option Nat :=
  if 0x30 ≤ c.toNat ∧ c.toNat ≤ 0x39 then some (c.toNat - 0x30)
  else if 0x61 ≤ c.toNat ∧ c.toNat ≤ 0x66 then some (c.toNat - 0x61 + 10)
  else if 0x41 ≤ c.toNat ∧ c.toNat ≤ 0x46 then some (c.toNat - 0x41 + 10)
  else none

/-- Decode a list of hex digit characters, two per byte
(`encoding/hex.DecodeString`). -/
def hexDecode : List Char → Option (List Nat)
  | [] => some []
  | [_] => none
  | c1 :: c2 :: rest =>
    match hexDigitVal c1, hexDigitVal c2, hexDecode rest with
    | some h, some l, some bs => some ((h * 16 + l) :: bs)
    | _, _, _ => none

/-- `primitive.ObjectIDFromHex`: succeeds iff the string has exactly 24
characters, all hexadecimal. -/
def objectIDFromHex (s : String) : Option ObjectId :=
  if s.length = 24 then hexDecode s.toList else none

/-- Lowercase hex digit character for a value `< 16`
(`encoding/hex.EncodeToString`). -/
def hexDigitChar (n : Nat) : Char :=
  if n < 10 then Char.ofNat ('0'.toNat + n) else Char.ofNat ('a'.toNat + (n - 10))

/-- Two lowercase hex characters of one byte. -/
def byteHex (b : Nat) : List Char :=
  [hexDigitChar (b / 16), hexDigitChar (b % 16)]

/-- `primitive.ObjectID.Hex()`: lowercase hex encoding of the 12 bytes. -/
def oidHex (oid : ObjectId) : String :=
  ⟨(oid.map byteHex).flatten⟩

/-- Go `unicode.IsSpace`: the White_Space code points Go's `strings.TrimSpace`
trims. -/
def isSpaceGo (c : Char) : Bool :=
  c.toNat ∈ [0x9, 0xA, 0xB, 0xC, 0xD, 0x20, 0x85, 0xA0,
             0x1680, 0x2028, 0x2029, 0x202F, 0x205F, 0x3000]
  ∨ (0x2000 ≤ c.toNat ∧ c.toNat ≤ 0x200A)

/-- `strings.TrimSpace` on a character list: drop leading and trailing
white space. -/
def trimSpaceL (l : List Char) : List Char :=
  ((l.dropWhile isSpaceGo).reverse.dropWhile isSpaceGo).reverse

/-- Go `strings.TrimSpace`. -/
def trimSpace (s : String) : String :=
  ⟨trimSpaceL s.toList⟩

/-- `todoModel` (main.go lines 33-38): the persistence representation,
BSON fields `_id`, `title`, `completed`, `createAt`. -/
structure todoModel where
  ID : ObjectId
  Title : String
  Completed : Bool
  CreatedAt : Nat
deriving Repr, DecidableEq

/-- `todo` (main.go lines 39-44): the wire representation, JSON fields
`id`, `title`, `completed`, `createAt`. -/
structure todo where
  ID : String
  Title : String
  Completed : Bool
  CreatedAt : Nat
deriving Repr, DecidableEq

/-- A JSON value appearing in a serialized `todo`. -/
inductive JsonVal where
  | str (s : String)
  | bool (b : Bool)
  | time (t : Nat)
deriving Repr, DecidableEq

/-- Serialization of a `todo` value by `encoding/json` according to the
struct tags of main.go lines 39-44: the exact wire field names and
values. -/
def todoToJson (t : todo) : List (String × JsonVal) :=
  [("id", .str t.ID), ("title", .str t.Title),
   ("completed", .bool t.Completed), ("createAt", .time t.CreatedAt)]

/-- The response bodies the handlers produce. -/
inductive Body where
  /-- `rnd.JSON(w, status, err)`: the raw decode error. -/
  | err
  /-- `renderer.M{"message": m}`. -/
  | msg (m : String)
  /-- `renderer.M{"message": m, "todo_id": id}`. -/
  | msgWithId (m : String) (id : String)
  /-- `renderer.M{"data": l}`. -/
  | data (l : List todo)
deriving Repr, DecidableEq

/-- An HTTP response: status code and JSON body. -/
structure Response where
  status : Nat
  body : Body
deriving Repr, DecidableEq

/-- The task list carried by a `data` response body (empty for the other
body forms). -/
def dataOf : Body → List todo
  | .data l => l
  | _ => []

/-- The store: the contents of the one `todo` collection, in store order. -/
abbrev Store := List todoModel

/-- `collection.DeleteOne(ctx, bson.M{"_id": oid})`: removes the first
record whose `_id` matches (at most one). -/
def deleteOne (oid : ObjectId) : Store → Store
  | [] => []
  | t :: rest => if t.ID = oid then rest else t :: deleteOne oid rest

/-- `collection.UpdateOne(ctx, bson.M{"_id": oid},
bson.M{"$set": ...})`: sets `title` and `completed` on the first record
whose `_id` matches (at most one); no upsert. -/
def updateOne (oid : ObjectId) (title : String) (completed : Bool) : Store → Store
  | [] => []
  | t :: rest =>
    if t.ID = oid then { t with Title := title, Completed := completed } :: rest
    else t :: updateOne oid title completed rest

/-- `fetchTodos` (main.go lines 62-95): list all stored records,
converted to the wire representation with `t.ID.Hex()`. -/
def fetchTodos (st : Store) : Response :=
  { status := 200,
    body := .data (st.map fun t =>
      { ID := oidHex t.ID, Title := t.Title,
        Completed := t.Completed, CreatedAt := t.CreatedAt }) }

/-- `createTodo` (main.go lines 97-131).  `body` is the JSON-decoded
request body (`none` = decode error); `newId` is the ObjectID generated
by `primitive.NewObjectID()`; `now` is `time.Now()`. -/
def createTodo (newId : ObjectId) (now : Nat) (body : Option todo) (st : Store) :
    Response × Store :=
  match body with
  | none => ({ status := 400, body := .err }, st)
  | some t =>
    if t.Title = "" then
      ({ status := 400, body := .msg "The title is required" }, st)
    else
      let tm : todoModel :=
        { ID := newId, Title := t.Title, Completed := false, CreatedAt := now }
      ({ status := 201,
         body := .msgWithId "Todo created successfully" (oidHex tm.ID) },
       st ++ [tm])

/-- `deleteTodo` (main.go lines 133-156).  `idParam` is the raw `{id}`
URL parameter. -/
def deleteTodo (idParam : String) (st : Store) : Response × Store :=
  let id := trimSpace idParam
  match objectIDFromHex id with
  | none => ({ status := 400, body := .msg "The Id is invalid" }, st)
  | some objID =>
    ({ status := 200, body := .msg "todo deleted successfully" },
     deleteOne objID st)

/-- `updateTodo` (main.go lines 158-197).  `idParam` is the raw `{id}`
URL parameter, `body` the JSON-decoded request body. -/
def updateTodo (idParam : String) (body : Option todo) (st : Store) :
    Response × Store :=
  let id := trimSpace idParam
  match objectIDFromHex id with
  | none => ({ status := 400, body := .msg "The id is invalid" }, st)
  | some objID =>
    match body with
    | none => ({ status := 400, body := .err }, st)
    | some t =>
      if t.Title = "" then
        ({ status := 400, body := .msg "The title field is missing" }, st)
      else
        ({ status := 200, body := .msg "Todo updated successfully" },
         updateOne objID t.Title t.Completed st)

/-! ## Store lemmas -/

theorem deleteOne_of_not_mem (oid : ObjectId) (st : Store)
    (h : oid ∉ st.map todoModel.ID) : deleteOne oid st = st := by
  induction st with
  | nil => rfl
  | cons t rest ih =>
    simp only [List.map_cons, List.mem_cons] at h
    push_neg at h
    rw [deleteOne, if_neg (Ne.symm h.1), ih h.2]

theorem updateOne_of_not_mem (oid : ObjectId) (ttl : String) (c : Bool) (st : Store)
    (h : oid ∉ st.map todoModel.ID) : updateOne oid ttl c st = st := by
  induction st with
  | nil => rfl
  | cons t rest ih =>
    simp only [List.map_cons, List.mem_cons] at h
    push_neg at h
    rw [updateOne, if_neg (Ne.symm h.1), ih h.2]

theorem updateOne_length (oid : ObjectId) (ttl : String) (c : Bool) (st : Store) :
    (updateOne oid ttl c st).length = st.length := by
  induction st with
  | nil => rfl
  | cons t rest ih =>
    by_cases hID : t.ID = oid <;> simp [updateOne, hID, ih]

theorem updateOne_getElem? (oid : ObjectId) (ttl : String) (c : Bool) (st : Store)
    (i : Nat) :
    (updateOne oid ttl c st)[i]? = st[i]? ∨
    (∃ r : todoModel, st[i]? = some r ∧ r.ID = oid ∧
      (updateOne oid ttl c st)[i]? = some { r with Title := ttl, Completed := c }) := by
  induction st generalizing i with
  | nil => left; rfl
  | cons t rest ih =>
    by_cases hID : t.ID = oid
    · cases i with
      | zero => right; exact ⟨t, by simp, hID, by simp [updateOne, hID]⟩
      | succ j => left; simp [updateOne, hID]
    · cases i with
      | zero => left; simp [updateOne, hID]
      | succ j => simpa [updateOne, hID] using ih j

/-! ## Hexadecimal and white-space lemmas -/

theorem hexDecode_all_hex : ∀ (l : List Char) (bs : List Nat), hexDecode l = some bs →
    ∀ c ∈ l, (hexDigitVal c).isSome
  | [], _, _, _, hc => absurd hc (by simp)
  | [c0], _, h, _, _ => by simp [hexDecode] at h
  | c1 :: c2 :: rest, bs, h, c, hc => by
    rcases hv1 : hexDigitVal c1 with _ | v1 <;>
      rcases hv2 : hexDigitVal c2 with _ | v2 <;>
      rcases hv3 : hexDecode rest with _ | bs3 <;>
      simp [hexDecode, hv1, hv2, hv3] at h
    rcases List.mem_cons.mp hc with hc | hc
    · subst hc; simp [hv1]
    rcases List.mem_cons.mp hc with hc | hc
    · subst hc; simp [hv2]
    exact hexDecode_all_hex rest bs3 hv3 c hc

theorem hex_not_space (c : Char) (h : (hexDigitVal c).isSome) : isSpaceGo c = false := by
  unfold hexDigitVal at h
  unfold isSpaceGo
  split_ifs at h with h1 h2 h3
  · simp only [List.mem_cons, List.not_mem_nil, or_false, decide_eq_false_iff_not]
    omega
  · simp only [List.mem_cons, List.not_mem_nil, or_false, decide_eq_false_iff_not]
    omega
  · simp only [List.mem_cons, List.not_mem_nil, or_false, decide_eq_false_iff_not]
    omega
  · simp at h

theorem dropWhile_append_all {α : Type} (p : α → Bool) (a b : List α)
    (h : ∀ x ∈ a, p x) : (a ++ b).dropWhile p = b.dropWhile p := by
  induction a with
  | nil => rfl
  | cons x xs ih =>
    rw [List.cons_append]
    simp only [List.dropWhile_cons, h x (by simp), if_true]
    exact ih fun y hy => h y (by simp [hy])

theorem dropWhile_eq_self_of_all_not {α : Type} (p : α → Bool) (l : List α)
    (h : ∀ x ∈ l, p x = false) : l.dropWhile p = l := by
  cases l with
  | nil => rfl
  | cons x xs => simp [List.dropWhile_cons, h x (by simp)]

theorem dropWhile_cons_of_false {α : Type} (p : α → Bool) (x : α) (l : List α)
    (hx : p x = false) : (x :: l).dropWhile p = x :: l := by
  simp [List.dropWhile_cons, hx]

theorem trimSpaceL_sandwich (ws1 ws2 core : List Char)
    (h1 : ∀ c ∈ ws1, isSpaceGo c) (h2 : ∀ c ∈ ws2, isSpaceGo c)
    (hcore : ∀ c ∈ core, isSpaceGo c = false) (hne : core ≠ []) :
    trimSpaceL (ws1 ++ core ++ ws2) = core := by
  obtain ⟨x, xs, rfl⟩ := List.exists_cons_of_ne_nil hne
  unfold trimSpaceL
  rw [List.append_assoc, dropWhile_append_all _ _ _ h1, List.cons_append,
    dropWhile_cons_of_false _ _ _ (hcore x (by simp)), ← List.cons_append,
    List.reverse_append,
    dropWhile_append_all _ _ _ (fun c hc => h2 c (List.mem_reverse.mp hc)),
    dropWhile_eq_self_of_all_not _ _ (fun c hc => hcore c (List.mem_reverse.mp hc)),
    List.reverse_reverse]

theorem trimSpaceL_eq_self (l : List Char) (h : ∀ c ∈ l, isSpaceGo c = false) :
    trimSpaceL l = l := by
  unfold trimSpaceL
  rw [dropWhile_eq_self_of_all_not _ _ h,
    dropWhile_eq_self_of_all_not _ _ (fun c hc => h c (List.mem_reverse.mp hc)),
    List.reverse_reverse]

theorem objectIDFromHex_core_chars (s : String) (oid : ObjectId)
    (h : objectIDFromHex s = some oid) :
    s.toList ≠ [] ∧ ∀ c ∈ s.toList, isSpaceGo c = false := by
  unfold objectIDFromHex at h
  split at h
  case isFalse => exact absurd h (by simp)
  case isTrue hlen =>
    have hne : s.toList ≠ [] := by
      intro hnil
      have hlen' : s.toList.length = 24 := hlen
      rw [hnil] at hlen'
      simp at hlen'
    exact ⟨hne, fun c hc => hex_not_space c (hexDecode_all_hex s.toList oid h c hc)⟩

theorem trimSpace_sandwich (ws1 ws2 : List Char) (core : String) (oid : ObjectId)
    (h1 : ∀ c ∈ ws1, isSpaceGo c) (h2 : ∀ c ∈ ws2, isSpaceGo c)
    (hParse : objectIDFromHex core = some oid) :
    trimSpace ⟨ws1 ++ core.toList ++ ws2⟩ = core ∧ trimSpace core = core := by
  obtain ⟨hne, hall⟩ := objectIDFromHex_core_chars core oid hParse
  constructor
  · show (⟨trimSpaceL (ws1 ++ core.toList ++ ws2)⟩ : String) = core
    rw [trimSpaceL_sandwich ws1 ws2 core.toList h1 h2 hall hne]
    rfl
  · show (⟨trimSpaceL core.toList⟩ : String) = core
    rw [trimSpaceL_eq_self core.toList hall]
    rfl

theorem updateOne_map_ID (oid : ObjectId) (ttl : String) (c : Bool) (st : Store) :
    (updateOne oid ttl c st).map todoModel.ID = st.map todoModel.ID := by
  induction st with
  | nil => rfl
  | cons t rest ih => by_cases hID : t.ID = oid <;> simp [updateOne, hID, ih]

theorem updateOne_map_CreatedAt (oid : ObjectId) (ttl : String) (c : Bool) (st : Store) :
    (updateOne oid ttl c st).map todoModel.CreatedAt = st.map todoModel.CreatedAt := by
  induction st with
  | nil => rfl
  | cons t rest ih => by_cases hID : t.ID = oid <;> simp [updateOne, hID, ih]

theorem updateOne_getElem?_of_ne (oid : ObjectId) (ttl : String) (c : Bool) (st : Store)
    (i : Nat) (r : todoModel) (hr : st[i]? = some r) (hne : r.ID ≠ oid) :
    (updateOne oid ttl c st)[i]? = some r := by
  rcases updateOne_getElem? oid ttl c st i with h | ⟨r2, hr2, hid2, _⟩
  · rw [h, hr]
  · rw [hr] at hr2
    cases Option.some.inj hr2
    exact absurd hid2 hne

/-! ## The claims -/

/-- C1: a create request whose body decodes successfully and whose title is
non-empty stores a record whose identifier is the freshly generated ObjectID
(occurring exactly once in the store when the generated identifier is fresh),
whose `Completed` field is false regardless of the `Completed` value supplied
in the input, whose `CreatedAt` is the current time, and responds with status
201 carrying that identifier's hex form. -/
theorem createTodo_creates (newId : ObjectId) (now : Nat) (t : todo) (st : Store)
    (hT : t.Title ≠ "") (hFresh : newId ∉ st.map todoModel.ID) :
    createTodo newId now (some t) st =
      ({ status := 201,
         body := .msgWithId "Todo created successfully" (oidHex newId) },
       st ++ [{ ID := newId, Title := t.Title, Completed := false, CreatedAt := now }]) ∧
    ((createTodo newId now (some t) st).2.map todoModel.ID).count newId = 1 := by
  have h1 : createTodo newId now (some t) st =
      ({ status := 201,
         body := .msgWithId "Todo created successfully" (oidHex newId) },
       st ++ [{ ID := newId, Title := t.Title, Completed := false, CreatedAt := now }]) := by
    simp [createTodo, hT]
  refine ⟨h1, ?_⟩
  rw [h1]
  simp [List.count_append, List.count_eq_zero.mpr hFresh]

/-- Witness for C1 at a concrete fresh identifier, time, input and store: the
supplied `Completed := true` is forced to false in the stored record. -/
theorem createTodo_creates_witness :
    createTodo (List.replicate 12 0) 7
        (some { ID := "", Title := "buy milk", Completed := true, CreatedAt := 3 }) [] =
      ({ status := 201,
         body := .msgWithId "Todo created successfully" (oidHex (List.replicate 12 0)) },
       [{ ID := List.replicate 12 0, Title := "buy milk", Completed := false,
          CreatedAt := 7 }]) ∧
    ((createTodo (List.replicate 12 0) 7
        (some { ID := "", Title := "buy milk", Completed := true, CreatedAt := 3 })
        []).2.map todoModel.ID).count (List.replicate 12 0) = 1 := by
  have h := createTodo_creates (List.replicate 12 0) 7
    { ID := "", Title := "buy milk", Completed := true, CreatedAt := 3 } []
    (by decide) (by simp)
  simpa using h

/-- C2: a task created via `createTodo` and then returned by `fetchTodos` is
listed with `id` the hex form of the stored identifier and `title`,
`completed`, `createdAt` exactly the values generated or supplied at
creation. -/
theorem create_then_list_roundtrip (newId : ObjectId) (now : Nat) (t : todo)
    (st : Store) (hT : t.Title ≠ "") :
    fetchTodos (createTodo newId now (some t) st).2 =
      { status := 200,
        body := .data ((st.map fun r =>
            { ID := oidHex r.ID, Title := r.Title, Completed := r.Completed,
              CreatedAt := r.CreatedAt }) ++
          [{ ID := oidHex newId, Title := t.Title, Completed := false,
             CreatedAt := now }]) } := by
  simp [createTodo, hT, fetchTodos]

/-- Witness for C2 at a concrete creation over a non-empty store. -/
theorem create_then_list_roundtrip_witness :
    fetchTodos (createTodo (List.replicate 12 1) 9
        (some { ID := "", Title := "walk dog", Completed := true, CreatedAt := 2 })
        [{ ID := List.replicate 12 0, Title := "old", Completed := true,
           CreatedAt := 4 }]).2 =
      { status := 200,
        body := .data [{ ID := oidHex (List.replicate 12 0), Title := "old",
                         Completed := true, CreatedAt := 4 },
                       { ID := oidHex (List.replicate 12 1), Title := "walk dog",
                         Completed := false, CreatedAt := 9 }] } := by
  have h := create_then_list_roundtrip (List.replicate 12 1) 9
    { ID := "", Title := "walk dog", Completed := true, CreatedAt := 2 }
    [{ ID := List.replicate 12 0, Title := "old", Completed := true, CreatedAt := 4 }]
    (by decide)
  simpa using h

/-- C3: for a syntactically valid identifier that matches no stored record,
both `updateTodo` (with a well-formed body and non-empty title) and
`deleteTodo` report success with status 200 and leave the store exactly as it
was: no record is created or mutated. -/
theorem missing_id_success_noop (idStr : String) (oid : ObjectId) (t : todo)
    (st : Store) (hParse : objectIDFromHex (trimSpace idStr) = some oid)
    (hMiss : oid ∉ st.map todoModel.ID) (hT : t.Title ≠ "") :
    deleteTodo idStr st =
      ({ status := 200, body := .msg "todo deleted successfully" }, st) ∧
    updateTodo idStr (some t) st =
      ({ status := 200, body := .msg "Todo updated successfully" }, st) := by
  constructor
  · simp [deleteTodo, hParse, deleteOne_of_not_mem oid st hMiss]
  · simp [updateTodo, hParse, hT, updateOne_of_not_mem oid t.Title t.Completed st hMiss]

/-- Witness for C3: a well-formed identifier absent from a one-record store. -/
theorem missing_id_success_noop_witness :
    deleteTodo "000000000000000000000000"
        [{ ID := List.replicate 12 255, Title := "keep", Completed := false,
           CreatedAt := 3 }] =
      ({ status := 200, body := .msg "todo deleted successfully" },
       [{ ID := List.replicate 12 255, Title := "keep", Completed := false,
          CreatedAt := 3 }]) ∧
    updateTodo "000000000000000000000000"
        (some { ID := "", Title := "new title", Completed := true, CreatedAt := 0 })
        [{ ID := List.replicate 12 255, Title := "keep", Completed := false,
           CreatedAt := 3 }] =
      ({ status := 200, body := .msg "Todo updated successfully" },
       [{ ID := List.replicate 12 255, Title := "keep", Completed := false,
          CreatedAt := 3 }]) :=
  missing_id_success_noop "000000000000000000000000" (List.replicate 12 0)
    { ID := "", Title := "new title", Completed := true, CreatedAt := 0 }
    [{ ID := List.replicate 12 255, Title := "keep", Completed := false, CreatedAt := 3 }]
    (by decide) (by decide) (by decide)

/-- C4: an update request with a valid identifier and a body whose title
decodes to the empty string responds with status 400 and performs no store
write: the store, including any record addressed by the identifier, is
returned unchanged. -/
theorem update_empty_title_rejected (idStr : String) (oid : ObjectId) (t : todo)
    (st : Store) (hParse : objectIDFromHex (trimSpace idStr) = some oid)
    (hT : t.Title = "") :
    updateTodo idStr (some t) st =
      ({ status := 400, body := .msg "The title field is missing" }, st) := by
  simp [updateTodo, hParse, hT]

/-- Witness for C4: empty-title update addressed at an existing record leaves
it unchanged. -/
theorem update_empty_title_rejected_witness :
    updateTodo "ffffffffffffffffffffffff"
        (some { ID := "", Title := "", Completed := true, CreatedAt := 0 })
        [{ ID := List.replicate 12 255, Title := "keep", Completed := false,
           CreatedAt := 3 }] =
      ({ status := 400, body := .msg "The title field is missing" },
       [{ ID := List.replicate 12 255, Title := "keep", Completed := false,
          CreatedAt := 3 }]) :=
  update_empty_title_rejected "ffffffffffffffffffffffff" (List.replicate 12 255)
    { ID := "", Title := "", Completed := true, CreatedAt := 0 }
    [{ ID := List.replicate 12 255, Title := "keep", Completed := false, CreatedAt := 3 }]
    (by decide) (by decide)

/-- C5: a successful update overwrites only `Title` and `Completed` on the
matching stored record: the store keeps its length, every record keeps its
identifier and its `CreatedAt` positionally, and every record whose
identifier differs from the addressed one is entirely unchanged. -/
theorem update_success_frame (idStr : String) (oid : ObjectId) (t : todo)
    (st : Store) (hParse : objectIDFromHex (trimSpace idStr) = some oid)
    (hT : t.Title ≠ "") :
    (updateTodo idStr (some t) st).1 =
      { status := 200, body := .msg "Todo updated successfully" } ∧
    (updateTodo idStr (some t) st).2.map todoModel.ID = st.map todoModel.ID ∧
    (updateTodo idStr (some t) st).2.map todoModel.CreatedAt =
      st.map todoModel.CreatedAt ∧
    (∀ i : Nat, ∀ r : todoModel, st[i]? = some r → r.ID ≠ oid →
      (updateTodo idStr (some t) st).2[i]? = some r) := by
  have h2 : (updateTodo idStr (some t) st).2 = updateOne oid t.Title t.Completed st := by
    simp [updateTodo, hParse, hT]
  refine ⟨by simp [updateTodo, hParse, hT], ?_, ?_, ?_⟩
  · rw [h2, updateOne_map_ID]
  · rw [h2, updateOne_map_CreatedAt]
  · intro i r hr hne
    rw [h2]
    exact updateOne_getElem?_of_ne oid t.Title t.Completed st i r hr hne

/-- Witness for C5: updating the first record of a two-record store. -/
theorem update_success_frame_witness :
    (updateTodo "0000000000000000000000ff"
        (some { ID := "", Title := "changed", Completed := true, CreatedAt := 0 })
        [{ ID := List.replicate 11 0 ++ [255], Title := "a", Completed := false,
           CreatedAt := 1 },
         { ID := List.replicate 12 7, Title := "b", Completed := false,
           CreatedAt := 2 }]).1 =
      { status := 200, body := .msg "Todo updated successfully" } ∧
    (updateTodo "0000000000000000000000ff"
        (some { ID := "", Title := "changed", Completed := true, CreatedAt := 0 })
        [{ ID := List.replicate 11 0 ++ [255], Title := "a", Completed := false,
           CreatedAt := 1 },
         { ID := List.replicate 12 7, Title := "b", Completed := false,
           CreatedAt := 2 }]).2.map todoModel.ID =
      [{ ID := List.replicate 11 0 ++ [255], Title := "a", Completed := false,
         CreatedAt := 1 },
       { ID := List.replicate 12 7, Title := "b", Completed := false,
         CreatedAt := 2 }].map todoModel.ID ∧
    (updateTodo "0000000000000000000000ff"
        (some { ID := "", Title := "changed", Completed := true, CreatedAt := 0 })
        [{ ID := List.replicate 11 0 ++ [255], Title := "a", Completed := false,
           CreatedAt := 1 },
         { ID := List.replicate 12 7, Title := "b", Completed := false,
           CreatedAt := 2 }]).2.map todoModel.CreatedAt =
      [{ ID := List.replicate 11 0 ++ [255], Title := "a", Completed := false,
         CreatedAt := 1 },
       { ID := List.replicate 12 7, Title := "b", Completed := false,
         CreatedAt := 2 }].map todoModel.CreatedAt ∧
    (∀ i : Nat, ∀ r : todoModel,
      [{ ID := List.replicate 11 0 ++ [255], Title := "a", Completed := false,
         CreatedAt := 1 },
       { ID := List.replicate 12 7, Title := "b", Completed := false,
         CreatedAt := 2 }][i]? = some r → r.ID ≠ List.replicate 11 0 ++ [255] →
      (updateTodo "0000000000000000000000ff"
        (some { ID := "", Title := "changed", Completed := true, CreatedAt := 0 })
        [{ ID := List.replicate 11 0 ++ [255], Title := "a", Completed := false,
           CreatedAt := 1 },
         { ID := List.replicate 12 7, Title := "b", Completed := false,
           CreatedAt := 2 }]).2[i]? = some r) :=
  update_success_frame "0000000000000000000000ff" (List.replicate 11 0 ++ [255])
    { ID := "", Title := "changed", Completed := true, CreatedAt := 0 }
    [{ ID := List.replicate 11 0 ++ [255], Title := "a", Completed := false,
       CreatedAt := 1 },
     { ID := List.replicate 12 7, Title := "b", Completed := false, CreatedAt := 2 }]
    (by decide) (by decide)

/-- C6: `createTodo` rejects a decoded request with a 400 validation error
exactly when the decoded title equals the empty string as provided (so a
whitespace-only title is not rejected), and on rejection nothing is
persisted: the store and thus a subsequent `fetchTodos` are unchanged. -/
theorem createTodo_reject_iff_empty_title (newId : ObjectId) (now : Nat) (t : todo)
    (st : Store) :
    ((createTodo newId now (some t) st).1.status = 400 ↔ t.Title = "") ∧
    (t.Title = "" →
      (createTodo newId now (some t) st).2 = st ∧
      fetchTodos (createTodo newId now (some t) st).2 = fetchTodos st) := by
  by_cases h : t.Title = "" <;> simp [createTodo, h]

/-- Witness for C6: the empty-title create is rejected with 400 and the
store is unchanged. -/
theorem createTodo_reject_iff_empty_title_witness :
    (createTodo (List.replicate 12 0) 1
      (some { ID := "", Title := "", Completed := true, CreatedAt := 0 }) []).1.status
        = 400 ∧
    (createTodo (List.replicate 12 0) 1
      (some { ID := "", Title := "", Completed := true, CreatedAt := 0 }) []).2 = [] := by
  have h := createTodo_reject_iff_empty_title (List.replicate 12 0) 1
    { ID := "", Title := "", Completed := true, CreatedAt := 0 } []
  exact ⟨h.1.mpr rfl, (h.2 rfl).1⟩

/-- C7: an update or delete request whose trimmed path identifier does not
parse as an ObjectID responds with status 400 and leaves the store
untouched, whatever the request body. -/
theorem invalid_id_rejected (idStr : String) (body : Option todo) (st : Store)
    (hBad : objectIDFromHex (trimSpace idStr) = none) :
    deleteTodo idStr st = ({ status := 400, body := .msg "The Id is invalid" }, st) ∧
    updateTodo idStr body st =
      ({ status := 400, body := .msg "The id is invalid" }, st) := by
  exact ⟨by simp [deleteTodo, hBad], by simp [updateTodo, hBad]⟩

/-- Witness for C7: a non-hexadecimal identifier against a non-empty store. -/
theorem invalid_id_rejected_witness :
    deleteTodo "not-an-objectid"
        [{ ID := List.replicate 12 1, Title := "x", Completed := false,
           CreatedAt := 0 }] =
      ({ status := 400, body := .msg "The Id is invalid" },
       [{ ID := List.replicate 12 1, Title := "x", Completed := false,
          CreatedAt := 0 }]) ∧
    updateTodo "not-an-objectid"
        (some { ID := "", Title := "y", Completed := true, CreatedAt := 0 })
        [{ ID := List.replicate 12 1, Title := "x", Completed := false,
           CreatedAt := 0 }] =
      ({ status := 400, body := .msg "The id is invalid" },
       [{ ID := List.replicate 12 1, Title := "x", Completed := false,
          CreatedAt := 0 }]) :=
  invalid_id_rejected "not-an-objectid"
    (some { ID := "", Title := "y", Completed := true, CreatedAt := 0 })
    [{ ID := List.replicate 12 1, Title := "x", Completed := false, CreatedAt := 0 }]
    (by decide)

/-- C8 as stated is false: the timestamp field of a listed task is
serialized under the name `createAt` (the struct tag in main.go line 43),
not `createdAt`.  Concretely, listing a one-record store yields a task whose
serialized field names end in `createAt`. -/
theorem listed_json_keys_counterexample :
    (todoToJson ⟨oidHex (List.replicate 12 0), "a", false, 0⟩).map Prod.fst =
      ["id", "title", "completed", "createAt"] ∧
    dataOf (fetchTodos [⟨List.replicate 12 0, "a", false, 0⟩]).body =
      [⟨oidHex (List.replicate 12 0), "a", false, 0⟩] ∧
    ["id", "title", "completed", "createAt"] ≠
      ["id", "title", "completed", "createdAt"] := by
  refine ⟨rfl, rfl, by decide⟩

/-- C8 amended: every task returned by the list operation is serialized on
the wire with exactly the field names `id` (string), `title` (string),
`completed` (bool), and `createAt` (timestamp). -/
theorem listed_json_shape (st : Store) :
    (dataOf (fetchTodos st).body).map todoToJson =
      st.map fun r =>
        [("id", JsonVal.str (oidHex r.ID)), ("title", JsonVal.str r.Title),
         ("completed", JsonVal.bool r.Completed),
         ("createAt", JsonVal.time r.CreatedAt)] := by
  simp [fetchTodos, dataOf, todoToJson]

/-- C9: for both update and delete, the path identifier is trimmed of
leading and trailing white space before parsing: an identifier that is a
valid ObjectID hex string surrounded by white space is accepted (delete
reports 200) and both operations behave exactly as on the trimmed
identifier. -/
theorem id_whitespace_trimmed (ws1 ws2 : List Char) (core : String)
    (oid : ObjectId) (body : Option todo) (st : Store)
    (h1 : ∀ c ∈ ws1, isSpaceGo c) (h2 : ∀ c ∈ ws2, isSpaceGo c)
    (hParse : objectIDFromHex core = some oid) :
    deleteTodo ⟨ws1 ++ core.toList ++ ws2⟩ st = deleteTodo core st ∧
    updateTodo ⟨ws1 ++ core.toList ++ ws2⟩ body st = updateTodo core body st ∧
    (deleteTodo ⟨ws1 ++ core.toList ++ ws2⟩ st).1.status = 200 := by
  obtain ⟨hsand, hself⟩ := trimSpace_sandwich ws1 ws2 core oid h1 h2 hParse
  have hd : deleteTodo ⟨ws1 ++ core.toList ++ ws2⟩ st = deleteTodo core st := by
    simp only [deleteTodo, hsand, hself]
  refine ⟨hd, ?_, ?_⟩
  · simp only [updateTodo, hsand, hself]
  · rw [hd]
    simp [deleteTodo, hself, hParse]

/-- Witness for C9: the identifier `aabbccddeeff001122334455` wrapped in a
space and a newline addresses the same store as the bare identifier. -/
theorem id_whitespace_trimmed_witness :
    deleteTodo ⟨[' '] ++ ("aabbccddeeff001122334455" : String).toList ++ ['\n']⟩
        [{ ID := List.replicate 12 3, Title := "x", Completed := false,
           CreatedAt := 0 }] =
      deleteTodo "aabbccddeeff001122334455"
        [{ ID := List.replicate 12 3, Title := "x", Completed := false,
           CreatedAt := 0 }] ∧
    updateTodo ⟨[' '] ++ ("aabbccddeeff001122334455" : String).toList ++ ['\n']⟩
        (some { ID := "", Title := "y", Completed := true, CreatedAt := 0 })
        [{ ID := List.replicate 12 3, Title := "x", Completed := false,
           CreatedAt := 0 }] =
      updateTodo "aabbccddeeff001122334455"
        (some { ID := "", Title := "y", Completed := true, CreatedAt := 0 })
        [{ ID := List.replicate 12 3, Title := "x", Completed := false,
           CreatedAt := 0 }] ∧
    (deleteTodo ⟨[' '] ++ ("aabbccddeeff001122334455" : String).toList ++ ['\n']⟩
        [{ ID := List.replicate 12 3, Title := "x", Completed := false,
           CreatedAt := 0 }]).1.status = 200 :=
  id_whitespace_trimmed [' '] ['\n'] "aabbccddeeff001122334455"
    [0xaa, 0xbb, 0xcc, 0xdd, 0xee, 0xff, 0x00, 0x11, 0x22, 0x33, 0x44, 0x55]
    (some { ID := "", Title := "y", Completed := true, CreatedAt := 0 })
    [{ ID := List.replicate 12 3, Title := "x", Completed := false, CreatedAt := 0 }]
    (by decide) (by decide) (by decide)

/-- C10: `updateTodo` validates in order.  When the trimmed identifier does
not parse, the response is the invalid-identifier 400 error and the outcome
is the same for every request body (malformed, empty-titled or valid): the
body is never consulted.  When the identifier parses but the body fails to
decode, the response is the decode-error 400, showing the body is decoded
before the empty-title check. -/
theorem update_validation_order (idStr : String) (st : Store) :
    (objectIDFromHex (trimSpace idStr) = none →
      (∀ b : Option todo, updateTodo idStr b st =
        ({ status := 400, body := .msg "The id is invalid" }, st)) ∧
      (∀ b1 b2 : Option todo, updateTodo idStr b1 st = updateTodo idStr b2 st)) ∧
    (∀ oid : ObjectId, objectIDFromHex (trimSpace idStr) = some oid →
      updateTodo idStr none st = ({ status := 400, body := .err }, st)) := by
  refine ⟨fun hBad => ⟨fun b => by simp [updateTodo, hBad], ?_⟩, fun oid hOk => ?_⟩
  · intro b1 b2
    simp [updateTodo, hBad]
  · simp [updateTodo, hOk]

/-- Witness for C10: an unparsable identifier gives the invalid-id error for
both a malformed and an empty-titled body, and a parsable identifier with a
malformed body gives the decode error. -/
theorem update_validation_order_witness :
    updateTodo "zz" (some { ID := "", Title := "", Completed := false, CreatedAt := 0 })
        [] = ({ status := 400, body := .msg "The id is invalid" }, []) ∧
    updateTodo "zz" none [] = updateTodo "zz"
        (some { ID := "", Title := "t", Completed := false, CreatedAt := 0 }) [] ∧
    updateTodo "aabbccddeeff001122334455" none [] =
      ({ status := 400, body := .err }, []) :=
  ⟨((update_validation_order "zz" []).1 (by decide)).1
      (some { ID := "", Title := "", Completed := false, CreatedAt := 0 }),
   ((update_validation_order "zz" []).1 (by decide)).2 none
      (some { ID := "", Title := "t", Completed := false, CreatedAt := 0 }),
   (update_validation_order "aabbccddeeff001122334455" []).2
      [0xaa, 0xbb, 0xcc, 0xdd, 0xee, 0xff, 0x00, 0x11, 0x22, 0x33, 0x44, 0x55]
      (by decide)⟩

end Todo
